import Mathlib

/-!
Shallow embedding of `src/server.py` (drbh/stitch): a FastAPI CRUD backend for
threads, posts and documents over a relational store.

Rows of the three tables are embedded as structures mirroring the SQLAlchemy
declarative classes `ThreadDB`, `PostDB`, `DocumentDB`.  The database is a
`Store`: one list per table plus the auto-increment counters SQLite keeps for
the integer primary keys.  Timestamps (`datetime.utcnow()`) are embedded as
naturals supplied to each handler as an explicit `now` argument; the
server-generated UUID of a document is likewise an explicit `String` argument.
File upload (the `shutil.copyfileobj` call) is I/O outside the data model: the
handlers receive the resulting `image_path : Option String` (`none` when no
image was supplied), matching the handler code after the upload block.

Each request handler of `server.py` becomes a Lean function from its inputs
and the current `Store` to its response and the new `Store`; handlers that can
raise `HTTPException` before committing return `Except HErr`, and the store is
unchanged on the error path (the session is discarded without commit).
`onupdate=datetime.utcnow` on `updated_at` columns is reflected by refreshing
`updated_at` whenever a row of that table is updated.
-/

namespace Stitch

/-- Row of the `threads` table (`class ThreadDB`). -/
structure ThreadDB where
  id : Nat
  title : String
  created_at : Nat
  updated_at : Nat
  last_activity : Nat
  creator : String
  view_count : Nat
  reply_count : Nat
deriving Repr, DecidableEq

/-- Row of the `posts` table (`class PostDB`). -/
structure PostDB where
  id : Nat
  author : String
  thread_id : Nat
  text : String
  time : Nat
  image : Option String
  edited : Bool
  seen : Bool
  view_count : Nat
  last_viewed : Option Nat
  is_initial_post : Bool
deriving Repr, DecidableEq

/-- Value of the JSON `content` column: `Union[str, List[List[str]]]`. -/
inductive Content where
  | str : String → Content
  | grid : List (List String) → Content
deriving Repr, DecidableEq

/-- Row of the `documents` table (`class DocumentDB`). -/
structure DocumentDB where
  id : String
  thread_id : Nat
  title : String
  content : Content
  type : String
  created_at : Nat
  updated_at : Nat
  last_viewed : Option Nat
  view_count : Nat
deriving Repr, DecidableEq

/-- Request body of `PUT /api/posts/{id}` and `POST /api/system/threads/{id}/posts`
(`class PostCreate(PostBase)`): `text: str`, `image: Optional[str] = None`.
An omitted `image` field defaults to `none`. -/
structure PostCreate where
  text : String
  image : Option String := none
deriving Repr, DecidableEq

/-- Request body of `POST /api/documents` and `PUT /api/documents/{id}`
(`class DocumentCreate(DocumentBase)`). -/
structure DocumentCreate where
  title : String
  thread_id : Nat
  content : Content
  type : String
deriving Repr, DecidableEq

/-- An `HTTPException(status_code, detail)`. -/
structure HErr where
  status : Nat
  detail : String
deriving Repr, DecidableEq

/-- The persistent state: the three tables plus SQLite's auto-increment
counters for the integer primary keys of `threads` and `posts`. -/
structure Store where
  threads : List ThreadDB
  posts : List PostDB
  documents : List DocumentDB
  next_thread_id : Nat
  next_post_id : Nat
deriving Repr, DecidableEq

/-- The empty database after `init_db` with the default empty seed lists
(SQLite auto-increment ids start at 1). -/
def emptyStore : Store := ⟨[], [], [], 1, 1⟩

/-- Embeds `db.query(ThreadDB).filter(ThreadDB.id == thread_id).first()`. -/
def findThread (s : Store) (thread_id : Nat) : Option ThreadDB :=
  s.threads.find? (fun t => t.id == thread_id)

/-- Embeds `db.query(PostDB).filter(PostDB.id == post_id).first()`. -/
def findPost (s : Store) (post_id : Nat) : Option PostDB :=
  s.posts.find? (fun p => p.id == post_id)

/-- Embeds `db.query(DocumentDB).filter(DocumentDB.id == doc_id).first()`. -/
def findDoc (s : Store) (doc_id : String) : Option DocumentDB :=
  s.documents.find? (fun d => d.id == doc_id)

/-- Response of `GET /api/threads/{id}` (`class CompleteThread`): the thread
with its full post and document collections. -/
structure CompleteThread where
  thread : ThreadDB
  posts : List PostDB
  documents : List DocumentDB
deriving Repr, DecidableEq

/-- Embeds `GET /api/threads`: all threads ordered by `last_activity` descending.
No mutation. -/
def get_threads (s : Store) : List ThreadDB :=
  s.threads.insertionSort (fun a b => b.last_activity ≤ a.last_activity)

/-- Embeds `GET /api/threads/{thread_id}`: 404 `"Thread not found"` when the id is
absent; otherwise `thread.view_count += 1`, commit (which also fires the
`onupdate` refresh of `updated_at`), and return the complete thread. -/
def get_thread (thread_id : Nat) (now : Nat) (s : Store) :
    Except HErr (CompleteThread × Store) :=
  match findThread s thread_id with
  | none => .error ⟨404, "Thread not found"⟩
  | some t =>
    let bump := fun (u : ThreadDB) =>
      if u.id == thread_id then
        { u with view_count := u.view_count + 1, updated_at := now }
      else u
    let s' : Store := { s with threads := s.threads.map bump }
    let t' := bump t
    .ok (⟨t', s'.posts.filter (fun p => p.thread_id == thread_id),
             s'.documents.filter (fun d => d.thread_id == thread_id)⟩, s')

/-- Embeds `POST /api/threads`: create the thread row, flush to obtain its id, create
the initial post row with `is_initial_post=True` and `author=creator`, commit
both in the same transaction, and return the refreshed thread.  `image_path`
is the result of the upload block (`None` when no image was supplied). -/
def create_thread (title creator initial_post : String)
    (image_path : Option String) (now : Nat) (s : Store) : ThreadDB × Store :=
  let tid := s.next_thread_id
  let db_thread : ThreadDB :=
    { id := tid, title := title, created_at := now, updated_at := now,
      last_activity := now, creator := creator, view_count := 0, reply_count := 0 }
  let pid := s.next_post_id
  let db_post : PostDB :=
    { id := pid, author := creator, thread_id := tid, text := initial_post,
      time := now, image := image_path, edited := false, seen := false,
      view_count := 0, last_viewed := none, is_initial_post := true }
  (db_thread,
    { s with threads := s.threads ++ [db_thread],
             posts := s.posts ++ [db_post],
             next_thread_id := tid + 1,
             next_post_id := pid + 1 })

/-- Embeds `DELETE /api/threads/{thread_id}`: 404 when absent; otherwise
`db.delete(thread)` with the `cascade="all, delete-orphan"` relationships
removing every post and document of that thread. -/
def delete_thread (thread_id : Nat) (s : Store) : Except HErr (String × Store) :=
  match findThread s thread_id with
  | none => .error ⟨404, "Thread not found"⟩
  | some _ =>
    .ok ("Thread deleted",
      { s with threads := s.threads.filter (fun t => t.id != thread_id),
               posts := s.posts.filter (fun p => p.thread_id != thread_id),
               documents := s.documents.filter (fun d => d.thread_id != thread_id) })

/-- The thread side effect of both post-creation routes:
`thread.reply_count += 1; thread.last_activity = datetime.utcnow()`
(the row update also fires the `onupdate` refresh of `updated_at`). -/
def bumpReply (thread_id now : Nat) (u : ThreadDB) : ThreadDB :=
  if u.id == thread_id then
    { u with reply_count := u.reply_count + 1, last_activity := now,
             updated_at := now }
  else u

/-- Embeds `POST /api/threads/{thread_id}/posts` (multipart form): 404 when the
thread is absent; otherwise insert a post with `author="user"`, bump the
parent thread's `reply_count` and `last_activity`, commit atomically. -/
def create_post (thread_id : Nat) (text : String) (image_path : Option String)
    (now : Nat) (s : Store) : Except HErr (PostDB × Store) :=
  match findThread s thread_id with
  | none => .error ⟨404, "Thread not found"⟩
  | some _ =>
    let pid := s.next_post_id
    let db_post : PostDB :=
      { id := pid, author := "user", thread_id := thread_id, text := text,
        time := now, image := image_path, edited := false, seen := false,
        view_count := 0, last_viewed := none, is_initial_post := false }
    .ok (db_post,
      { s with posts := s.posts ++ [db_post],
               threads := s.threads.map (bumpReply thread_id now),
               next_post_id := pid + 1 })

/-- Embeds `POST /api/system/threads/{thread_id}/posts` (JSON body): same as
`create_post` but the payload is a `PostCreate` and `author="system"`. -/
def create_post_json (thread_id : Nat) (post : PostCreate) (now : Nat)
    (s : Store) : Except HErr (PostDB × Store) :=
  match findThread s thread_id with
  | none => .error ⟨404, "Thread not found"⟩
  | some _ =>
    let pid := s.next_post_id
    let db_post : PostDB :=
      { id := pid, author := "system", thread_id := thread_id,
        text := post.text, time := now, image := post.image, edited := false,
        seen := false, view_count := 0, last_viewed := none,
        is_initial_post := false }
    .ok (db_post,
      { s with posts := s.posts ++ [db_post],
               threads := s.threads.map (bumpReply thread_id now),
               next_post_id := pid + 1 })

/-- Embeds `GET /api/threads/{thread_id}/posts`: all posts of the thread ordered by
`time` ascending.  No existence check, no mutation. -/
def get_posts (thread_id : Nat) (s : Store) : List PostDB :=
  (s.posts.filter (fun p => p.thread_id == thread_id)).insertionSort
    (fun a b => a.time ≤ b.time)

/-- Embeds `GET /api/threads/{thread_id}/documents`: the documents of the thread (the
handler returns them keyed by id; the association list embeds that mapping).
No existence check, no mutation. -/
def get_documents (thread_id : Nat) (s : Store) : List (String × DocumentDB) :=
  (s.documents.filter (fun d => d.thread_id == thread_id)).map
    (fun d => (d.id, d))

/-- Embeds `POST /api/documents`: insert a document with a fresh server-generated
string id (`str(uuid4())`, here the explicit argument `new_id`) and the
payload's fields.  No thread existence check. -/
def create_document (document : DocumentCreate) (new_id : String) (now : Nat)
    (s : Store) : DocumentDB × Store :=
  let db_document : DocumentDB :=
    { id := new_id, thread_id := document.thread_id, title := document.title,
      content := document.content, type := document.type, created_at := now,
      updated_at := now, last_viewed := none, view_count := 0 }
  (db_document, { s with documents := s.documents ++ [db_document] })

/-- Embeds `GET /api/documents/{doc_id}`: 404 `"Document not found"` when absent;
otherwise `view_count += 1`, `last_viewed = now`, commit (firing the
`onupdate` refresh of `updated_at`), return the document. -/
def get_document (doc_id : String) (now : Nat) (s : Store) :
    Except HErr (DocumentDB × Store) :=
  match findDoc s doc_id with
  | none => .error ⟨404, "Document not found"⟩
  | some d =>
    let bump := fun (u : DocumentDB) =>
      if u.id == doc_id then
        { u with view_count := u.view_count + 1, last_viewed := some now,
                 updated_at := now }
      else u
    .ok (bump d, { s with documents := s.documents.map bump })

/-- Embeds `DELETE /api/documents/{doc_id}`: 404 when absent; otherwise hard delete. -/
def delete_document (doc_id : String) (s : Store) : Except HErr (String × Store) :=
  match findDoc s doc_id with
  | none => .error ⟨404, "Document not found"⟩
  | some _ =>
    .ok ("Document deleted",
      { s with documents := s.documents.filter (fun d => d.id != doc_id) })

/-- Embeds `PUT /api/documents/{doc_id}`: 404 when absent; otherwise overwrite every
field of `DocumentCreate` (`title`, `thread_id`, `content`, `type`) on the
row, commit (firing the `onupdate` refresh of `updated_at`). -/
def update_document (doc_id : String) (document : DocumentCreate) (now : Nat)
    (s : Store) : Except HErr (DocumentDB × Store) :=
  match findDoc s doc_id with
  | none => .error ⟨404, "Document not found"⟩
  | some d =>
    let apply := fun (u : DocumentDB) =>
      if u.id == doc_id then
        { u with title := document.title, thread_id := document.thread_id,
                 content := document.content, type := document.type,
                 updated_at := now }
      else u
    .ok (apply d, { s with documents := s.documents.map apply })

/-- Embeds `GET /api/posts/{post_id}`: 404 `"Post not found"` when absent; otherwise
`view_count += 1`, `seen = True`, `last_viewed = now`, commit, return. -/
def get_post (post_id : Nat) (now : Nat) (s : Store) :
    Except HErr (PostDB × Store) :=
  match findPost s post_id with
  | none => .error ⟨404, "Post not found"⟩
  | some p =>
    let bump := fun (u : PostDB) =>
      if u.id == post_id then
        { u with view_count := u.view_count + 1, seen := true,
                 last_viewed := some now }
      else u
    .ok (bump p, { s with posts := s.posts.map bump })

/-- Embeds `PUT /api/posts/{post_id}`: 404 when absent; otherwise overwrite every
field of `PostCreate` (`text`, `image`) on the row and set `edited = True`. -/
def update_post (post_id : Nat) (post_update : PostCreate) (s : Store) :
    Except HErr (PostDB × Store) :=
  match findPost s post_id with
  | none => .error ⟨404, "Post not found"⟩
  | some p =>
    let apply := fun (u : PostDB) =>
      if u.id == post_id then
        { u with text := post_update.text, image := post_update.image,
                 edited := true }
      else u
    .ok (apply p, { s with posts := s.posts.map apply })

/-- Embeds `DELETE /api/posts/{post_id}`: 404 when absent; otherwise hard delete (the
parent thread's `reply_count` is not adjusted). -/
def delete_post (post_id : Nat) (s : Store) : Except HErr (String × Store) :=
  match findPost s post_id with
  | none => .error ⟨404, "Post not found"⟩
  | some _ =>
    .ok ("Post deleted",
      { s with posts := s.posts.filter (fun p => p.id != post_id) })

/-- One API request, with all server-supplied nondeterminism (current time,
generated UUID, result of a successful file upload) made explicit. -/
inductive Op where
  | getThreads
  | getThread (thread_id now : Nat)
  | createThread (title creator initial_post : String)
      (image_path : Option String) (now : Nat)
  | deleteThread (thread_id : Nat)
  | createPost (thread_id : Nat) (text : String) (image_path : Option String)
      (now : Nat)
  | createPostJson (thread_id : Nat) (post : PostCreate) (now : Nat)
  | getPosts (thread_id : Nat)
  | getDocuments (thread_id : Nat)
  | createDocument (document : DocumentCreate) (new_id : String) (now : Nat)
  | getDocument (doc_id : String) (now : Nat)
  | deleteDocument (doc_id : String)
  | updateDocument (doc_id : String) (document : DocumentCreate) (now : Nat)
  | getPost (post_id now : Nat)
  | updatePost (post_id : Nat) (post_update : PostCreate)
  | deletePost (post_id : Nat)
deriving Repr, DecidableEq

/-- The store after a fallible handler: on an `HTTPException` the session is
closed without commit, so the store is unchanged. -/
def afterExcept {A : Type} (r : Except HErr (A × Store)) (s : Store) : Store :=
  match r with
  | .ok (_, s') => s'
  | .error _ => s

/-- The state transition of one request: the store after handling `op`. -/
def step (op : Op) (s : Store) : Store :=
  match op with
  | .getThreads => s
  | .getThread tid now => afterExcept (get_thread tid now s) s
  | .createThread title creator initial_post image_path now =>
      (create_thread title creator initial_post image_path now s).2
  | .deleteThread tid => afterExcept (delete_thread tid s) s
  | .createPost tid text image_path now =>
      afterExcept (create_post tid text image_path now s) s
  | .createPostJson tid post now =>
      afterExcept (create_post_json tid post now s) s
  | .getPosts _ => s
  | .getDocuments _ => s
  | .createDocument document new_id now =>
      (create_document document new_id now s).2
  | .getDocument doc_id now => afterExcept (get_document doc_id now s) s
  | .deleteDocument doc_id => afterExcept (delete_document doc_id s) s
  | .updateDocument doc_id document now =>
      afterExcept (update_document doc_id document now s) s
  | .getPost pid now => afterExcept (get_post pid now s) s
  | .updatePost pid post_update => afterExcept (update_post pid post_update s) s
  | .deletePost pid => afterExcept (delete_post pid s) s

/-- Well-formed store: primary keys are unique in each table (what the
relational engine's PRIMARY KEY constraint guarantees). -/
def WF (s : Store) : Prop :=
  (s.threads.map ThreadDB.id).Nodup ∧ (s.posts.map PostDB.id).Nodup ∧
    (s.documents.map DocumentDB.id).Nodup

instance (s : Store) : Decidable (WF s) := by unfold WF; infer_instance

/-! ### Generic lemmas about `List.find?` under the row operations the
handlers perform: in-place update (`map` with a key-preserving function),
insert (`++ [row]`) and delete (`filter`). -/

theorem find?_map_key {α : Type} {g : α → α} {key : α → Bool}
    (hkey : ∀ a, key (g a) = key a) (l : List α) :
    (l.map g).find? key = (l.find? key).map g := by
  rw [List.find?_map]
  have hfun : key ∘ g = key := funext hkey
  rw [hfun]

theorem find?_map_of_some {α : Type} {g : α → α} {key : α → Bool}
    (hkey : ∀ a, key (g a) = key a) {l : List α} {a : α}
    (h : l.find? key = some a) : (l.map g).find? key = some (g a) := by
  rw [find?_map_key hkey, h, Option.map_some']

theorem find?_append_left {α : Type} {key : α → Bool} {l₁ : List α}
    (l₂ : List α) {a : α} (h : l₁.find? key = some a) :
    (l₁ ++ l₂).find? key = some a := by
  rw [List.find?_append, h, Option.or_some]

theorem find?_filter_subset {α : Type} {q key : α → Bool} {l : List α} {b : α}
    (h : (l.filter q).find? key = some b) :
    b ∈ l ∧ q b = true ∧ key b = true := by
  have hmem := List.mem_of_find?_eq_some h
  have hkey := List.find?_some h
  rw [List.mem_filter] at hmem
  exact ⟨hmem.1, hmem.2, hkey⟩

theorem find?_key_unique {α β : Type} [BEq β] [LawfulBEq β] {f : α → β}
    {l : List α} (hl : (l.map f).Nodup) {key : β} {a b : α}
    (ha : l.find? (fun x => f x == key) = some a) (hb : b ∈ l)
    (hbk : f b = key) : a = b := by
  have haMem := List.mem_of_find?_eq_some ha
  have haK' : (fun x => f x == key) a = true :=
    @List.find?_some _ (fun x => f x == key) a l ha
  have haK : f a = key := eq_of_beq haK'
  exact List.inj_on_of_nodup_map hl haMem hb (haK.trans hbk.symm)

theorem findThread_id {s : Store} {tid : Nat} {t : ThreadDB}
    (h : findThread s tid = some t) : t.id = tid := by
  have h' : s.threads.find? (fun u => u.id == tid) = some t := h
  exact eq_of_beq (@List.find?_some _ (fun u => u.id == tid) t s.threads h')

theorem findThread_mem {s : Store} {tid : Nat} {t : ThreadDB}
    (h : findThread s tid = some t) : t ∈ s.threads :=
  List.mem_of_find?_eq_some h

theorem findPost_id {s : Store} {pid : Nat} {p : PostDB}
    (h : findPost s pid = some p) : p.id = pid := by
  have h' : s.posts.find? (fun u => u.id == pid) = some p := h
  exact eq_of_beq (@List.find?_some _ (fun u => u.id == pid) p s.posts h')

theorem findPost_mem {s : Store} {pid : Nat} {p : PostDB}
    (h : findPost s pid = some p) : p ∈ s.posts :=
  List.mem_of_find?_eq_some h

theorem findDoc_id {s : Store} {did : String} {d : DocumentDB}
    (h : findDoc s did = some d) : d.id = did := by
  have h' : s.documents.find? (fun u => u.id == did) = some d := h
  exact eq_of_beq (@List.find?_some _ (fun u => u.id == did) d s.documents h')

theorem findDoc_mem {s : Store} {did : String} {d : DocumentDB}
    (h : findDoc s did = some d) : d ∈ s.documents :=
  List.mem_of_find?_eq_some h

/-! ### Concrete sample data, used by the witness theorems. -/

def sampleThread : ThreadDB :=
  { id := 1, title := "Hello", created_at := 0, updated_at := 0,
    last_activity := 0, creator := "alice", view_count := 0, reply_count := 0 }

def samplePost : PostDB :=
  { id := 1, author := "alice", thread_id := 1, text := "First post",
    time := 0, image := none, edited := false, seen := false, view_count := 0,
    last_viewed := none, is_initial_post := true }

def sampleDoc : DocumentDB :=
  { id := "d1", thread_id := 1, title := "doc", content := Content.str "x",
    type := "note", created_at := 0, updated_at := 0, last_viewed := none,
    view_count := 0 }

def sampleStore : Store := ⟨[sampleThread], [samplePost], [sampleDoc], 2, 2⟩

/-! ### Claim theorems -/

/-- C1: every thread-creation request that succeeds inserts exactly one
Thread row and exactly one Post row in the same transaction; the Post has
`is_initial_post = true`, `thread_id` equal to the new thread's id, `text`
equal to `initial_post` and `author` equal to the supplied creator; the
response is the created Thread with `reply_count = 0`. -/
theorem create_thread_spec (title creator initial_post : String)
    (image_path : Option String) (now : Nat) (s : Store) :
    let r := create_thread title creator initial_post image_path now s
    r.2.threads = s.threads ++ [r.1] ∧
    (∃ p : PostDB, r.2.posts = s.posts ++ [p] ∧
       p.is_initial_post = true ∧ p.thread_id = r.1.id ∧
       p.text = initial_post ∧ p.author = creator) ∧
    r.2.documents = s.documents ∧
    r.1.title = title ∧ r.1.creator = creator ∧ r.1.reply_count = 0 := by
  exact ⟨rfl, ⟨_, rfl, rfl, rfl, rfl, rfl⟩, rfl, rfl, rfl, rfl⟩

/-- C2: deleting an existing thread removes, in one transition, the thread
together with every Post and every Document whose `thread_id` equals it, so
that afterward zero posts and zero documents reference the id; deleting a
nonexistent thread id fails with 404 `"Thread not found"` and changes
nothing. -/
theorem delete_thread_spec (thread_id : Nat) (s : Store) :
    (∀ t, findThread s thread_id = some t →
       ∃ s', delete_thread thread_id s = .ok ("Thread deleted", s') ∧
         step (Op.deleteThread thread_id) s = s' ∧
         (∀ u ∈ s'.threads, u.id ≠ thread_id) ∧
         (∀ p ∈ s'.posts, p.thread_id ≠ thread_id) ∧
         (∀ d ∈ s'.documents, d.thread_id ≠ thread_id)) ∧
    (findThread s thread_id = none →
       delete_thread thread_id s = .error ⟨404, "Thread not found"⟩ ∧
       step (Op.deleteThread thread_id) s = s) := by
  constructor
  · intro t ht
    refine ⟨{ s with threads := s.threads.filter (fun u => u.id != thread_id),
                     posts := s.posts.filter (fun p => p.thread_id != thread_id),
                     documents :=
                       s.documents.filter (fun d => d.thread_id != thread_id) },
            ?_, ?_, ?_, ?_, ?_⟩
    · simp [delete_thread, ht]
    · simp [step, afterExcept, delete_thread, ht]
    · intro u hu
      rw [List.mem_filter] at hu
      simpa [bne_iff_ne] using hu.2
    · intro p hp
      rw [List.mem_filter] at hp
      simpa [bne_iff_ne] using hp.2
    · intro d hd
      rw [List.mem_filter] at hd
      simpa [bne_iff_ne] using hd.2
  · intro hn
    constructor
    · simp [delete_thread, hn]
    · simp [step, afterExcept, delete_thread, hn]

/-- C2 witness: deleting thread 1 of the sample store succeeds and leaves no
post or document referencing thread id 1. -/
theorem delete_thread_spec_witness :
    ∃ s', delete_thread 1 sampleStore = .ok ("Thread deleted", s') ∧
      step (Op.deleteThread 1) sampleStore = s' ∧
      (∀ u ∈ s'.threads, u.id ≠ 1) ∧
      (∀ p ∈ s'.posts, p.thread_id ≠ 1) ∧
      (∀ d ∈ s'.documents, d.thread_id ≠ 1) :=
  (delete_thread_spec 1 sampleStore).1 sampleThread (by rfl)

/-- C7: updating an existing post overwrites the client-writable fields
(`text`, `image`) from the payload and sets `edited = true`, for every
payload (no diff check); updating a nonexistent post id fails with 404. -/
theorem update_post_spec (post_id : Nat) (post_update : PostCreate) (s : Store) :
    (∀ p, findPost s post_id = some p →
       ∃ p' s', update_post post_id post_update s = .ok (p', s') ∧
         p'.text = post_update.text ∧ p'.image = post_update.image ∧
         p'.edited = true ∧ findPost s' post_id = some p') ∧
    (findPost s post_id = none →
       update_post post_id post_update s = .error ⟨404, "Post not found"⟩ ∧
       step (Op.updatePost post_id post_update) s = s) := by
  constructor
  · intro p hp
    have hbeq : (p.id == post_id) = true := beq_iff_eq.mpr (findPost_id hp)
    have hkey : ∀ u : PostDB,
        ((if u.id == post_id then
            { u with text := post_update.text, image := post_update.image,
                     edited := true }
          else u).id == post_id) = (u.id == post_id) := by
      intro u
      cases h : u.id == post_id <;> simp [h]
    refine ⟨{ p with text := post_update.text, image := post_update.image,
                     edited := true },
            { s with posts := s.posts.map (fun u =>
                if u.id == post_id then
                  { u with text := post_update.text,
                           image := post_update.image, edited := true }
                else u) },
            ?_, rfl, rfl, rfl, ?_⟩
    · simp [update_post, hp, hbeq]
    · have := find?_map_of_some hkey hp
      rw [hbeq] at this
      simpa [findPost, hbeq] using this
  · intro hn
    constructor
    · simp [update_post, hn]
    · simp [step, afterExcept, update_post, hn]

/-- C7 witness: updating post 1 of the sample store with a payload equal to
its current text succeeds and still sets `edited = true`. -/
theorem update_post_spec_witness :
    ∃ p' s', update_post 1 ⟨"First post", none⟩ sampleStore = .ok (p', s') ∧
      p'.text = "First post" ∧ p'.image = none ∧ p'.edited = true ∧
      findPost s' 1 = some p' :=
  (update_post_spec 1 ⟨"First post", none⟩ sampleStore).1 samplePost (by rfl)

/-- C10: a post update whose payload omits the `image` field (the
`PostCreate` default makes the parsed payload's image `none`) overwrites the
stored image with `none`, and every field outside the payload and the
`edited` flag — `id`, `thread_id`, `author`, `time`, `seen`, `view_count`,
`last_viewed`, `is_initial_post` — is unchanged; other rows are untouched. -/
theorem update_post_frame (post_id : Nat) (text : String) (s : Store) :
    ∀ p, findPost s post_id = some p →
      ∃ p' s', update_post post_id { text := text } s = .ok (p', s') ∧
        p'.image = none ∧ p'.edited = true ∧ p'.text = text ∧
        p'.id = p.id ∧ p'.thread_id = p.thread_id ∧ p'.author = p.author ∧
        p'.time = p.time ∧ p'.seen = p.seen ∧
        p'.view_count = p.view_count ∧ p'.last_viewed = p.last_viewed ∧
        p'.is_initial_post = p.is_initial_post ∧
        s'.threads = s.threads ∧ s'.documents = s.documents ∧
        (∀ q ∈ s.posts, q.id ≠ post_id → q ∈ s'.posts) := by
  intro p hp
  have hbeq : (p.id == post_id) = true := beq_iff_eq.mpr (findPost_id hp)
  refine ⟨{ p with text := text, image := none, edited := true },
          { s with posts := s.posts.map (fun u =>
              if u.id == post_id then
                { u with text := text, image := none, edited := true }
              else u) },
          ?_, rfl, rfl, rfl, rfl, rfl, rfl, rfl, rfl, rfl, rfl, rfl, rfl, rfl,
          ?_⟩
  · simp [update_post, hp, hbeq]
  · intro q hq hqid
    have : (q.id == post_id) = false := beq_eq_false_iff_ne.mpr hqid
    have himg : (fun u : PostDB =>
        if u.id == post_id then
          { u with text := text, image := none, edited := true }
        else u) q = q := by simp [this]
    rw [← himg]
    exact List.mem_map_of_mem _ hq

/-- C10 witness: updating post 1 of the sample store with a payload omitting
the image leaves the frame fields unchanged and nulls the image. -/
theorem update_post_frame_witness :
    ∃ p' s', update_post 1 { text := "edited text" } sampleStore = .ok (p', s') ∧
      p'.image = none ∧ p'.edited = true ∧ p'.text = "edited text" ∧
      p'.id = samplePost.id ∧ p'.thread_id = samplePost.thread_id ∧
      p'.author = samplePost.author ∧ p'.time = samplePost.time ∧
      p'.seen = samplePost.seen ∧ p'.view_count = samplePost.view_count ∧
      p'.last_viewed = samplePost.last_viewed ∧
      p'.is_initial_post = samplePost.is_initial_post ∧
      s'.threads = sampleStore.threads ∧
      s'.documents = sampleStore.documents ∧
      (∀ q ∈ sampleStore.posts, q.id ≠ 1 → q ∈ s'.posts) :=
  update_post_frame 1 "edited text" sampleStore samplePost (by rfl)

/-- C3: fetching an existing thread increments its `view_count` by exactly 1
and returns the thread with its posts and documents; fetching an absent id
returns 404 with detail `"Thread not found"` and leaves the store unchanged. -/
theorem get_thread_spec (thread_id now : Nat) (s : Store) :
    (∀ t, findThread s thread_id = some t →
       ∃ r s', get_thread thread_id now s = .ok (r, s') ∧
         step (Op.getThread thread_id now) s = s' ∧
         r.thread.id = t.id ∧ r.thread.view_count = t.view_count + 1 ∧
         findThread s' thread_id = some r.thread ∧
         r.posts = s.posts.filter (fun p => p.thread_id == thread_id) ∧
         r.documents = s.documents.filter (fun d => d.thread_id == thread_id) ∧
         s'.posts = s.posts ∧ s'.documents = s.documents) ∧
    (findThread s thread_id = none →
       get_thread thread_id now s = .error ⟨404, "Thread not found"⟩ ∧
       step (Op.getThread thread_id now) s = s) := by
  constructor
  · intro t ht
    have hbeq : (t.id == thread_id) = true := beq_iff_eq.mpr (findThread_id ht)
    have hkey : ∀ u : ThreadDB,
        ((if u.id == thread_id then
            { u with view_count := u.view_count + 1, updated_at := now }
          else u).id == thread_id) = (u.id == thread_id) := by
      intro u
      cases h : u.id == thread_id <;> simp [h]
    refine ⟨⟨{ t with view_count := t.view_count + 1, updated_at := now },
             s.posts.filter (fun p => p.thread_id == thread_id),
             s.documents.filter (fun d => d.thread_id == thread_id)⟩,
            { s with threads := s.threads.map (fun u =>
                if u.id == thread_id then
                  { u with view_count := u.view_count + 1, updated_at := now }
                else u) },
            ?_, ?_, rfl, rfl, ?_, rfl, rfl, rfl, rfl⟩
    · simp [get_thread, ht, hbeq]
    · simp [step, afterExcept, get_thread, ht, hbeq]
    · have := find?_map_of_some hkey ht
      rw [hbeq] at this
      simpa [findThread, hbeq] using this
  · intro hn
    constructor
    · simp [get_thread, hn]
    · simp [step, afterExcept, get_thread, hn]

/-- C3 witness: fetching thread 1 of the sample store returns it with
`view_count` bumped from 0 to 1, its one post and its one document; the
stored posts and documents are unchanged. -/
theorem get_thread_spec_witness :
    ∃ r s', get_thread 1 9 sampleStore = .ok (r, s') ∧
      step (Op.getThread 1 9) sampleStore = s' ∧
      r.thread.id = sampleThread.id ∧
      r.thread.view_count = sampleThread.view_count + 1 ∧
      findThread s' 1 = some r.thread ∧
      r.posts = sampleStore.posts.filter (fun p => p.thread_id == 1) ∧
      r.documents = sampleStore.documents.filter (fun d => d.thread_id == 1) ∧
      s'.posts = sampleStore.posts ∧ s'.documents = sampleStore.documents :=
  (get_thread_spec 1 9 sampleStore).1 sampleThread (by rfl)

/-- C4: creating a post against an existing thread — via the multipart form
route, which fixes `author = "user"`, or the structured JSON route, which
fixes `author = "system"` — inserts the post and, in the same transition,
increments the thread's `reply_count` by exactly 1 and sets `last_activity`
to the current time (hence to a value ≥ its previous one whenever the clock
has not gone backwards); against an absent thread id both routes fail with
404 and insert nothing. -/
theorem create_post_spec (thread_id : Nat) (text : String)
    (image_path : Option String) (post : PostCreate) (now : Nat) (s : Store) :
    (∀ t, findThread s thread_id = some t →
       (∃ p s', create_post thread_id text image_path now s = .ok (p, s') ∧
          step (Op.createPost thread_id text image_path now) s = s' ∧
          p.author = "user" ∧ p.thread_id = thread_id ∧ p.text = text ∧
          s'.posts = s.posts ++ [p] ∧
          ∃ t', findThread s' thread_id = some t' ∧
            t'.reply_count = t.reply_count + 1 ∧ t'.last_activity = now ∧
            (t.last_activity ≤ now → t.last_activity ≤ t'.last_activity)) ∧
       (∃ p s', create_post_json thread_id post now s = .ok (p, s') ∧
          step (Op.createPostJson thread_id post now) s = s' ∧
          p.author = "system" ∧ p.thread_id = thread_id ∧ p.text = post.text ∧
          s'.posts = s.posts ++ [p] ∧
          ∃ t', findThread s' thread_id = some t' ∧
            t'.reply_count = t.reply_count + 1 ∧ t'.last_activity = now ∧
            (t.last_activity ≤ now → t.last_activity ≤ t'.last_activity))) ∧
    (findThread s thread_id = none →
       create_post thread_id text image_path now s
           = .error ⟨404, "Thread not found"⟩ ∧
       create_post_json thread_id post now s
           = .error ⟨404, "Thread not found"⟩ ∧
       step (Op.createPost thread_id text image_path now) s = s ∧
       step (Op.createPostJson thread_id post now) s = s) := by
  have hkey : ∀ u : ThreadDB,
      ((bumpReply thread_id now u).id == thread_id) = (u.id == thread_id) := by
    intro u
    unfold bumpReply
    cases h : u.id == thread_id <;> simp [h]
  constructor
  · intro t ht
    have hbeq : (t.id == thread_id) = true := beq_iff_eq.mpr (findThread_id ht)
    have hfind : (s.threads.map (bumpReply thread_id now)).find?
        (fun u => u.id == thread_id) = some (bumpReply thread_id now t) :=
      find?_map_of_some hkey ht
    have hbump : bumpReply thread_id now t
        = { t with reply_count := t.reply_count + 1, last_activity := now,
                   updated_at := now } := by
      unfold bumpReply
      rw [hbeq]
      simp
    constructor
    · refine ⟨{ id := s.next_post_id, author := "user", thread_id := thread_id,
                text := text, time := now, image := image_path,
                edited := false, seen := false, view_count := 0,
                last_viewed := none, is_initial_post := false },
              { s with
                  posts :=
                    s.posts ++
                      [{ id := s.next_post_id, author := "user",
                         thread_id := thread_id, text := text, time := now,
                         image := image_path, edited := false, seen := false,
                         view_count := 0, last_viewed := none,
                         is_initial_post := false }],
                  threads := s.threads.map (bumpReply thread_id now),
                  next_post_id := s.next_post_id + 1 },
              ?_, ?_, rfl, rfl, rfl, rfl,
              bumpReply thread_id now t, hfind, ?_, ?_, ?_⟩
      · simp [create_post, ht]
      · simp [step, afterExcept, create_post, ht]
      · rw [hbump]
      · rw [hbump]
      · intro h
        rw [hbump]
        exact h
    · refine ⟨{ id := s.next_post_id, author := "system",
                thread_id := thread_id, text := post.text, time := now,
                image := post.image, edited := false, seen := false,
                view_count := 0, last_viewed := none,
                is_initial_post := false },
              { s with
                  posts :=
                    s.posts ++
                      [{ id := s.next_post_id, author := "system",
                         thread_id := thread_id, text := post.text,
                         time := now, image := post.image, edited := false,
                         seen := false, view_count := 0, last_viewed := none,
                         is_initial_post := false }],
                  threads := s.threads.map (bumpReply thread_id now),
                  next_post_id := s.next_post_id + 1 },
              ?_, ?_, rfl, rfl, rfl, rfl,
              bumpReply thread_id now t, hfind, ?_, ?_, ?_⟩
      · simp [create_post_json, ht]
      · simp [step, afterExcept, create_post_json, ht]
      · rw [hbump]
      · rw [hbump]
      · intro h
        rw [hbump]
        exact h
  · intro hn
    refine ⟨?_, ?_, ?_, ?_⟩
    · simp [create_post, hn]
    · simp [create_post_json, hn]
    · simp [step, afterExcept, create_post, hn]
    · simp [step, afterExcept, create_post_json, hn]

/-- C4 witness: posting to thread 1 of the sample store via both routes
succeeds, with `author` fixed to `"user"` and `"system"` respectively, and
bumps `reply_count` from 0 to 1. -/
theorem create_post_spec_witness :
    (∃ p s', create_post 1 "re" none 7 sampleStore = .ok (p, s') ∧
       step (Op.createPost 1 "re" none 7) sampleStore = s' ∧
       p.author = "user" ∧ p.thread_id = 1 ∧ p.text = "re" ∧
       s'.posts = sampleStore.posts ++ [p] ∧
       ∃ t', findThread s' 1 = some t' ∧
         t'.reply_count = sampleThread.reply_count + 1 ∧
         t'.last_activity = 7 ∧
         (sampleThread.last_activity ≤ 7 →
           sampleThread.last_activity ≤ t'.last_activity)) ∧
    (∃ p s', create_post_json 1 { text := "sys" } 7 sampleStore = .ok (p, s') ∧
       step (Op.createPostJson 1 { text := "sys" } 7) sampleStore = s' ∧
       p.author = "system" ∧ p.thread_id = 1 ∧ p.text = "sys" ∧
       s'.posts = sampleStore.posts ++ [p] ∧
       ∃ t', findThread s' 1 = some t' ∧
         t'.reply_count = sampleThread.reply_count + 1 ∧
         t'.last_activity = 7 ∧
         (sampleThread.last_activity ≤ 7 →
           sampleThread.last_activity ≤ t'.last_activity)) :=
  (create_post_spec 1 "re" none { text := "sys" } 7 sampleStore).1
    sampleThread (by rfl)

instance : IsTotal PostDB (fun a b => a.time ≤ b.time) :=
  ⟨fun a b => Nat.le_total a.time b.time⟩

instance : IsTrans PostDB (fun a b => a.time ≤ b.time) :=
  ⟨fun _ _ _ => Nat.le_trans⟩

/-- C6: for every thread id, existing or not, listing posts returns exactly
the posts whose `thread_id` matches, ordered by `time` ascending, mutates
nothing, and returns the empty list rather than an error when nothing
matches. -/
theorem get_posts_spec (thread_id : Nat) (s : Store) :
    (get_posts thread_id s).Perm
        (s.posts.filter (fun p => p.thread_id == thread_id)) ∧
    (∀ p ∈ get_posts thread_id s, p.thread_id = thread_id) ∧
    (∀ p ∈ s.posts, p.thread_id = thread_id → p ∈ get_posts thread_id s) ∧
    List.Pairwise (fun a b : PostDB => a.time ≤ b.time)
        (get_posts thread_id s) ∧
    step (Op.getPosts thread_id) s = s ∧
    ((∀ p ∈ s.posts, p.thread_id ≠ thread_id) → get_posts thread_id s = []) := by
  have hperm : (get_posts thread_id s).Perm
      (s.posts.filter (fun p => p.thread_id == thread_id)) :=
    List.perm_insertionSort _ _
  refine ⟨hperm, ?_, ?_, ?_, rfl, ?_⟩
  · intro p hp
    have : p ∈ s.posts.filter (fun p => p.thread_id == thread_id) :=
      hperm.mem_iff.mp hp
    rw [List.mem_filter] at this
    exact eq_of_beq this.2
  · intro p hp hid
    have : p ∈ s.posts.filter (fun p => p.thread_id == thread_id) :=
      List.mem_filter.mpr ⟨hp, beq_iff_eq.mpr hid⟩
    exact hperm.mem_iff.mpr this
  · exact List.sorted_insertionSort _ _
  · intro h
    have hnil : s.posts.filter (fun p => p.thread_id == thread_id) = [] := by
      rw [List.filter_eq_nil_iff]
      intro p hp
      simpa using h p hp
    simp [get_posts, hnil]

/-- C6 witness: listing posts for the unknown thread id 42 of the sample
store returns the empty list, and the store is unchanged. -/
theorem get_posts_spec_witness :
    step (Op.getPosts 42) sampleStore = sampleStore ∧
      get_posts 42 sampleStore = [] := by
  have h := get_posts_spec 42 sampleStore
  exact ⟨h.2.2.2.2.1, h.2.2.2.2.2 (by decide)⟩

/-- C8: a document created with grid content, fetched back through its
returned id, yields content structurally equal to the input grid (for any
fresh server-generated id, as UUIDs are). -/
theorem document_roundtrip (document : DocumentCreate) (new_id : String)
    (g : List (List String)) (now now2 : Nat) (s : Store)
    (hg : document.content = Content.grid g)
    (hfresh : ∀ d ∈ s.documents, d.id ≠ new_id) :
    let r := create_document document new_id now s
    ∃ d' s', get_document r.1.id now2 r.2 = .ok (d', s') ∧
      d'.content = Content.grid g ∧ d'.title = document.title ∧
      d'.thread_id = document.thread_id ∧ d'.type = document.type := by
  intro r
  have hr : r.1.id = new_id := rfl
  rw [hr]
  have hnone : s.documents.find? (fun d => d.id == new_id) = none := by
    rw [List.find?_eq_none]
    intro d hd
    simpa using hfresh d hd
  have hfind : findDoc r.2 new_id = some r.1 := by
    show (s.documents ++ [r.1]).find? (fun d => d.id == new_id) = some r.1
    rw [List.find?_append, hnone, Option.none_or]
    have : (r.1.id == new_id) = true := beq_iff_eq.mpr rfl
    simp [List.find?, this]
  refine ⟨{ r.1 with view_count := r.1.view_count + 1,
                     last_viewed := some now2, updated_at := now2 },
          { r.2 with documents := r.2.documents.map (fun u =>
              if u.id == new_id then
                { u with view_count := u.view_count + 1,
                         last_viewed := some now2, updated_at := now2 }
              else u) },
          ?_, ?_, rfl, rfl, rfl⟩
  · simp [get_document, hfind, hr]
  · show r.1.content = Content.grid g
    exact hg

/-- C8 witness: a document created with a concrete 2×3 grid on the sample
store round-trips to the same grid. -/
theorem document_roundtrip_witness :
    let r := create_document
        ⟨"grid doc", 1, Content.grid [["a", "b", "c"], ["d", "e", "f"]],
         "table"⟩ "d2" 3 sampleStore
    ∃ d' s', get_document r.1.id 4 r.2 = .ok (d', s') ∧
      d'.content = Content.grid [["a", "b", "c"], ["d", "e", "f"]] ∧
      d'.title = "grid doc" ∧ d'.thread_id = 1 ∧ d'.type = "table" :=
  document_roundtrip
    ⟨"grid doc", 1, Content.grid [["a", "b", "c"], ["d", "e", "f"]], "table"⟩
    "d2" [["a", "b", "c"], ["d", "e", "f"]] 3 4 sampleStore rfl (by decide)

/-! ### Step equations: the store after each kind of request, in closed
form, split on whether the looked-up row exists. -/

theorem step_getThreads (s : Store) : step Op.getThreads s = s := rfl

theorem step_getPosts (tid : Nat) (s : Store) :
    step (Op.getPosts tid) s = s := rfl

theorem step_getDocuments (tid : Nat) (s : Store) :
    step (Op.getDocuments tid) s = s := rfl

theorem step_getThread_none {s : Store} {tid : Nat} (now : Nat)
    (hf : findThread s tid = none) : step (Op.getThread tid now) s = s := by
  simp [step, afterExcept, get_thread, hf]

theorem step_getThread_some {s : Store} {tid : Nat} {t : ThreadDB} (now : Nat)
    (hf : findThread s tid = some t) :
    step (Op.getThread tid now) s =
      { s with threads := s.threads.map (fun u =>
          if u.id == tid then
            { u with view_count := u.view_count + 1, updated_at := now }
          else u) } := by
  simp [step, afterExcept, get_thread, hf]

theorem step_createThread (title creator initial_post : String)
    (image_path : Option String) (now : Nat) (s : Store) :
    step (Op.createThread title creator initial_post image_path now) s =
      { s with
          threads :=
            s.threads ++
              [{ id := s.next_thread_id, title := title, created_at := now,
                 updated_at := now, last_activity := now, creator := creator,
                 view_count := 0, reply_count := 0 }],
          posts :=
            s.posts ++
              [{ id := s.next_post_id, author := creator,
                 thread_id := s.next_thread_id, text := initial_post,
                 time := now, image := image_path, edited := false,
                 seen := false, view_count := 0, last_viewed := none,
                 is_initial_post := true }],
          next_thread_id := s.next_thread_id + 1,
          next_post_id := s.next_post_id + 1 } := rfl

theorem step_deleteThread_none {s : Store} {tid : Nat}
    (hf : findThread s tid = none) : step (Op.deleteThread tid) s = s := by
  simp [step, afterExcept, delete_thread, hf]

theorem step_deleteThread_some {s : Store} {tid : Nat} {t : ThreadDB}
    (hf : findThread s tid = some t) :
    step (Op.deleteThread tid) s =
      { s with threads := s.threads.filter (fun u => u.id != tid),
               posts := s.posts.filter (fun p => p.thread_id != tid),
               documents := s.documents.filter (fun d => d.thread_id != tid) } := by
  simp [step, afterExcept, delete_thread, hf]

theorem step_createPost_none {s : Store} {tid : Nat} (text : String)
    (image_path : Option String) (now : Nat) (hf : findThread s tid = none) :
    step (Op.createPost tid text image_path now) s = s := by
  simp [step, afterExcept, create_post, hf]

theorem step_createPost_some {s : Store} {tid : Nat} {t : ThreadDB}
    (text : String) (image_path : Option String) (now : Nat)
    (hf : findThread s tid = some t) :
    step (Op.createPost tid text image_path now) s =
      { s with
          posts :=
            s.posts ++
              [{ id := s.next_post_id, author := "user", thread_id := tid,
                 text := text, time := now, image := image_path,
                 edited := false, seen := false, view_count := 0,
                 last_viewed := none, is_initial_post := false }],
          threads := s.threads.map (bumpReply tid now),
          next_post_id := s.next_post_id + 1 } := by
  simp [step, afterExcept, create_post, hf]

theorem step_createPostJson_none {s : Store} {tid : Nat} (post : PostCreate)
    (now : Nat) (hf : findThread s tid = none) :
    step (Op.createPostJson tid post now) s = s := by
  simp [step, afterExcept, create_post_json, hf]

theorem step_createPostJson_some {s : Store} {tid : Nat} {t : ThreadDB}
    (post : PostCreate) (now : Nat) (hf : findThread s tid = some t) :
    step (Op.createPostJson tid post now) s =
      { s with
          posts :=
            s.posts ++
              [{ id := s.next_post_id, author := "system", thread_id := tid,
                 text := post.text, time := now, image := post.image,
                 edited := false, seen := false, view_count := 0,
                 last_viewed := none, is_initial_post := false }],
          threads := s.threads.map (bumpReply tid now),
          next_post_id := s.next_post_id + 1 } := by
  simp [step, afterExcept, create_post_json, hf]

theorem step_createDocument (document : DocumentCreate) (new_id : String)
    (now : Nat) (s : Store) :
    step (Op.createDocument document new_id now) s =
      { s with documents := s.documents ++
          [{ id := new_id, thread_id := document.thread_id,
             title := document.title, content := document.content,
             type := document.type, created_at := now, updated_at := now,
             last_viewed := none, view_count := 0 }] } := rfl

theorem step_getDocument_none {s : Store} {did : String} (now : Nat)
    (hf : findDoc s did = none) : step (Op.getDocument did now) s = s := by
  simp [step, afterExcept, get_document, hf]

theorem step_getDocument_some {s : Store} {did : String} {d : DocumentDB}
    (now : Nat) (hf : findDoc s did = some d) :
    step (Op.getDocument did now) s =
      { s with documents := s.documents.map (fun u =>
          if u.id == did then
            { u with view_count := u.view_count + 1,
                     last_viewed := some now, updated_at := now }
          else u) } := by
  simp [step, afterExcept, get_document, hf]

theorem step_deleteDocument_none {s : Store} {did : String}
    (hf : findDoc s did = none) : step (Op.deleteDocument did) s = s := by
  simp [step, afterExcept, delete_document, hf]

theorem step_deleteDocument_some {s : Store} {did : String} {d : DocumentDB}
    (hf : findDoc s did = some d) :
    step (Op.deleteDocument did) s =
      { s with documents := s.documents.filter (fun u => u.id != did) } := by
  simp [step, afterExcept, delete_document, hf]

theorem step_updateDocument_none {s : Store} {did : String}
    (document : DocumentCreate) (now : Nat) (hf : findDoc s did = none) :
    step (Op.updateDocument did document now) s = s := by
  simp [step, afterExcept, update_document, hf]

theorem step_updateDocument_some {s : Store} {did : String} {d : DocumentDB}
    (document : DocumentCreate) (now : Nat) (hf : findDoc s did = some d) :
    step (Op.updateDocument did document now) s =
      { s with documents := s.documents.map (fun u =>
          if u.id == did then
            { u with title := document.title,
                     thread_id := document.thread_id,
                     content := document.content, type := document.type,
                     updated_at := now }
          else u) } := by
  simp [step, afterExcept, update_document, hf]

theorem step_getPost_none {s : Store} {pid : Nat} (now : Nat)
    (hf : findPost s pid = none) : step (Op.getPost pid now) s = s := by
  simp [step, afterExcept, get_post, hf]

theorem step_getPost_some {s : Store} {pid : Nat} {p : PostDB} (now : Nat)
    (hf : findPost s pid = some p) :
    step (Op.getPost pid now) s =
      { s with posts := s.posts.map (fun u =>
          if u.id == pid then
            { u with view_count := u.view_count + 1, seen := true,
                     last_viewed := some now }
          else u) } := by
  simp [step, afterExcept, get_post, hf]

theorem step_updatePost_none {s : Store} {pid : Nat}
    (post_update : PostCreate) (hf : findPost s pid = none) :
    step (Op.updatePost pid post_update) s = s := by
  simp [step, afterExcept, update_post, hf]

theorem step_updatePost_some {s : Store} {pid : Nat} {p : PostDB}
    (post_update : PostCreate) (hf : findPost s pid = some p) :
    step (Op.updatePost pid post_update) s =
      { s with posts := s.posts.map (fun u =>
          if u.id == pid then
            { u with text := post_update.text, image := post_update.image,
                     edited := true }
          else u) } := by
  simp [step, afterExcept, update_post, hf]

theorem step_deletePost_none {s : Store} {pid : Nat}
    (hf : findPost s pid = none) : step (Op.deletePost pid) s = s := by
  simp [step, afterExcept, delete_post, hf]

theorem step_deletePost_some {s : Store} {pid : Nat} {p : PostDB}
    (hf : findPost s pid = some p) :
    step (Op.deletePost pid) s =
      { s with posts := s.posts.filter (fun u => u.id != pid) } := by
  simp [step, afterExcept, delete_post, hf]

/-- Every post row references an existing thread row. -/
def PostsRefExistingThread (s : Store) : Prop :=
  ∀ p ∈ s.posts, ∃ t ∈ s.threads, t.id = p.thread_id

instance (s : Store) : Decidable (PostsRefExistingThread s) := by
  unfold PostsRefExistingThread
  infer_instance

theorem exists_thread_map {g : ThreadDB → ThreadDB}
    (hg : ∀ u, (g u).id = u.id) {l : List ThreadDB} {x : Nat}
    (h : ∃ t ∈ l, t.id = x) : ∃ t ∈ l.map g, t.id = x := by
  obtain ⟨t, htl, hx⟩ := h
  exact ⟨g t, List.mem_map_of_mem g htl, (hg t).trans hx⟩

theorem bumpReply_id (tid now : Nat) (u : ThreadDB) :
    (bumpReply tid now u).id = u.id := by
  unfold bumpReply
  cases h : u.id == tid <;> simp [h]

/-- C5 counterexample: document creation performs no thread-existence check.
Creating a document whose `thread_id` is 1 on the empty store succeeds and
afterwards a stored document references thread id 1 while no thread row has
that id — the claimed pre-insert existence check does not exist. -/
theorem create_document_unchecked_thread :
    ∃ d ∈ (create_document ⟨"doc", 1, Content.str "x", "note"⟩
        "d-new" 0 emptyStore).2.documents,
      ∀ t ∈ (create_document ⟨"doc", 1, Content.str "x", "note"⟩
          "d-new" 0 emptyStore).2.threads, t.id ≠ d.thread_id := by
  decide

/-- C5 amended: every Post references an existing Thread after any
operation — the post-inserting handlers check thread existence first and
thread deletion cascades to the thread's posts — but Documents enjoy no such
guarantee, because document creation and document full-replace perform no
existence check on `thread_id`. -/
theorem posts_reference_existing_thread (op : Op) (s : Store)
    (h : PostsRefExistingThread s) : PostsRefExistingThread (step op s) := by
  cases op with
  | getThreads => exact h
  | getPosts tid => exact h
  | getDocuments tid => exact h
  | getThread tid now =>
    cases hf : findThread s tid with
    | none => rw [step_getThread_none now hf]; exact h
    | some t =>
      rw [step_getThread_some now hf]
      intro p hp
      refine exists_thread_map ?_ (h p hp)
      intro u
      cases hu : u.id == tid <;> simp [hu]
  | createThread title creator initial_post image_path now =>
    rw [step_createThread]
    intro p hp
    rw [List.mem_append] at hp
    cases hp with
    | inl hp =>
      obtain ⟨t, htl, hx⟩ := h p hp
      exact ⟨t, List.mem_append_left _ htl, hx⟩
    | inr hp =>
      rw [List.mem_singleton] at hp
      subst hp
      exact ⟨{ id := s.next_thread_id, title := title, created_at := now,
               updated_at := now, last_activity := now, creator := creator,
               view_count := 0, reply_count := 0 },
             List.mem_append_right _ (List.mem_singleton.mpr rfl), rfl⟩
  | deleteThread tid =>
    cases hf : findThread s tid with
    | none => rw [step_deleteThread_none hf]; exact h
    | some t =>
      rw [step_deleteThread_some hf]
      intro p hp
      rw [List.mem_filter] at hp
      obtain ⟨t', ht', hx⟩ := h p hp.1
      refine ⟨t', List.mem_filter.mpr ⟨ht', ?_⟩, hx⟩
      rw [hx]
      exact hp.2
  | createPost tid text image_path now =>
    cases hf : findThread s tid with
    | none => rw [step_createPost_none text image_path now hf]; exact h
    | some t =>
      rw [step_createPost_some text image_path now hf]
      intro p hp
      rw [List.mem_append] at hp
      cases hp with
      | inl hp =>
        exact exists_thread_map (bumpReply_id tid now) (h p hp)
      | inr hp =>
        rw [List.mem_singleton] at hp
        subst hp
        refine exists_thread_map (bumpReply_id tid now)
          ⟨t, findThread_mem hf, findThread_id hf⟩
  | createPostJson tid post now =>
    cases hf : findThread s tid with
    | none => rw [step_createPostJson_none post now hf]; exact h
    | some t =>
      rw [step_createPostJson_some post now hf]
      intro p hp
      rw [List.mem_append] at hp
      cases hp with
      | inl hp =>
        exact exists_thread_map (bumpReply_id tid now) (h p hp)
      | inr hp =>
        rw [List.mem_singleton] at hp
        subst hp
        refine exists_thread_map (bumpReply_id tid now)
          ⟨t, findThread_mem hf, findThread_id hf⟩
  | createDocument document new_id now =>
    rw [step_createDocument]
    exact h
  | getDocument did now =>
    cases hf : findDoc s did with
    | none => rw [step_getDocument_none now hf]; exact h
    | some d => rw [step_getDocument_some now hf]; exact h
  | deleteDocument did =>
    cases hf : findDoc s did with
    | none => rw [step_deleteDocument_none hf]; exact h
    | some d => rw [step_deleteDocument_some hf]; exact h
  | updateDocument did document now =>
    cases hf : findDoc s did with
    | none => rw [step_updateDocument_none document now hf]; exact h
    | some d => rw [step_updateDocument_some document now hf]; exact h
  | getPost pid now =>
    cases hf : findPost s pid with
    | none => rw [step_getPost_none now hf]; exact h
    | some p =>
      rw [step_getPost_some now hf]
      intro q hq
      rw [List.mem_map] at hq
      obtain ⟨q', hq', hmap⟩ := hq
      have hthread : q.thread_id = q'.thread_id := by
        subst hmap
        cases hu : q'.id == pid <;> simp [hu]
      rw [hthread]
      exact h q' hq'
  | updatePost pid post_update =>
    cases hf : findPost s pid with
    | none => rw [step_updatePost_none post_update hf]; exact h
    | some p =>
      rw [step_updatePost_some post_update hf]
      intro q hq
      rw [List.mem_map] at hq
      obtain ⟨q', hq', hmap⟩ := hq
      have hthread : q.thread_id = q'.thread_id := by
        subst hmap
        cases hu : q'.id == pid <;> simp [hu]
      rw [hthread]
      exact h q' hq'
  | deletePost pid =>
    cases hf : findPost s pid with
    | none => rw [step_deletePost_none hf]; exact h
    | some p =>
      rw [step_deletePost_some hf]
      intro q hq
      rw [List.mem_filter] at hq
      exact h q hq.1

/-- C5 amended witness: the sample store satisfies the post referential
integrity invariant, and still does after a post is created against its
thread. -/
theorem posts_reference_existing_thread_witness :
    PostsRefExistingThread (step (Op.createPost 1 "re" none 7) sampleStore) :=
  posts_reference_existing_thread (Op.createPost 1 "re" none 7) sampleStore
    (by decide)

theorem find?_filter_stable {α β : Type} [BEq β] [LawfulBEq β] {f : α → β}
    {l : List α} (hl : (l.map f).Nodup) {q : α → Bool} {key : β} {a b : α}
    (ha : l.find? (fun x => f x == key) = some a)
    (hb : (l.filter q).find? (fun x => f x == key) = some b) : a = b := by
  obtain ⟨hbl, _, hbk⟩ := find?_filter_subset hb
  exact find?_key_unique hl ha hbl (eq_of_beq hbk)

theorem thread_counters_mono (op : Op) (s : Store) (hw : WF s)
    {tid : Nat} {t t' : ThreadDB} (h : findThread s tid = some t)
    (h' : findThread (step op s) tid = some t') :
    t.view_count ≤ t'.view_count ∧ t.reply_count ≤ t'.reply_count := by
  cases op with
  | getThreads =>
    rw [step_getThreads, h] at h'
    rw [← Option.some.inj h']
    exact ⟨le_refl _, le_refl _⟩
  | getPosts tid2 =>
    rw [step_getPosts, h] at h'
    rw [← Option.some.inj h']
    exact ⟨le_refl _, le_refl _⟩
  | getDocuments tid2 =>
    rw [step_getDocuments, h] at h'
    rw [← Option.some.inj h']
    exact ⟨le_refl _, le_refl _⟩
  | getThread tid0 now =>
    cases hf : findThread s tid0 with
    | none =>
      rw [step_getThread_none now hf, h] at h'
      rw [← Option.some.inj h']
      exact ⟨le_refl _, le_refl _⟩
    | some t0 =>
      rw [step_getThread_some now hf] at h'
      simp only [findThread] at h h'
      have hkey : ∀ u : ThreadDB,
          ((if u.id == tid0 then
              { u with view_count := u.view_count + 1, updated_at := now }
            else u).id == tid) = (u.id == tid) := by
        intro u
        cases hu : u.id == tid0 <;> simp [hu]
      have hmap := find?_map_of_some hkey h
      rw [← Option.some.inj (hmap.symm.trans h')]
      cases hu : t.id == tid0 <;> simp [hu]
  | createThread title creator initial_post image_path now =>
    rw [step_createThread] at h'
    simp only [findThread] at h h'
    rw [find?_append_left _ h] at h'
    rw [← Option.some.inj h']
    exact ⟨le_refl _, le_refl _⟩
  | deleteThread tid0 =>
    cases hf : findThread s tid0 with
    | none =>
      rw [step_deleteThread_none hf, h] at h'
      rw [← Option.some.inj h']
      exact ⟨le_refl _, le_refl _⟩
    | some t0 =>
      rw [step_deleteThread_some hf] at h'
      simp only [findThread] at h h'
      rw [← find?_filter_stable hw.1 h h']
      exact ⟨le_refl _, le_refl _⟩
  | createPost tid0 text image_path now =>
    cases hf : findThread s tid0 with
    | none =>
      rw [step_createPost_none text image_path now hf, h] at h'
      rw [← Option.some.inj h']
      exact ⟨le_refl _, le_refl _⟩
    | some t0 =>
      rw [step_createPost_some text image_path now hf] at h'
      simp only [findThread] at h h'
      have hkey : ∀ u : ThreadDB,
          ((bumpReply tid0 now u).id == tid) = (u.id == tid) := by
        intro u
        rw [bumpReply_id]
      have hmap := find?_map_of_some hkey h
      rw [← Option.some.inj (hmap.symm.trans h')]
      unfold bumpReply
      cases hu : t.id == tid0 <;> simp [hu]
  | createPostJson tid0 post now =>
    cases hf : findThread s tid0 with
    | none =>
      rw [step_createPostJson_none post now hf, h] at h'
      rw [← Option.some.inj h']
      exact ⟨le_refl _, le_refl _⟩
    | some t0 =>
      rw [step_createPostJson_some post now hf] at h'
      simp only [findThread] at h h'
      have hkey : ∀ u : ThreadDB,
          ((bumpReply tid0 now u).id == tid) = (u.id == tid) := by
        intro u
        rw [bumpReply_id]
      have hmap := find?_map_of_some hkey h
      rw [← Option.some.inj (hmap.symm.trans h')]
      unfold bumpReply
      cases hu : t.id == tid0 <;> simp [hu]
  | createDocument document new_id now =>
    rw [step_createDocument] at h'
    simp only [findThread] at h h'
    rw [h] at h'
    rw [← Option.some.inj h']
    exact ⟨le_refl _, le_refl _⟩
  | getDocument did now =>
    cases hf : findDoc s did with
    | none =>
      rw [step_getDocument_none now hf, h] at h'
      rw [← Option.some.inj h']
      exact ⟨le_refl _, le_refl _⟩
    | some d0 =>
      rw [step_getDocument_some now hf] at h'
      simp only [findThread] at h h'
      rw [h] at h'
      rw [← Option.some.inj h']
      exact ⟨le_refl _, le_refl _⟩
  | deleteDocument did =>
    cases hf : findDoc s did with
    | none =>
      rw [step_deleteDocument_none hf, h] at h'
      rw [← Option.some.inj h']
      exact ⟨le_refl _, le_refl _⟩
    | some d0 =>
      rw [step_deleteDocument_some hf] at h'
      simp only [findThread] at h h'
      rw [h] at h'
      rw [← Option.some.inj h']
      exact ⟨le_refl _, le_refl _⟩
  | updateDocument did document now =>
    cases hf : findDoc s did with
    | none =>
      rw [step_updateDocument_none document now hf, h] at h'
      rw [← Option.some.inj h']
      exact ⟨le_refl _, le_refl _⟩
    | some d0 =>
      rw [step_updateDocument_some document now hf] at h'
      simp only [findThread] at h h'
      rw [h] at h'
      rw [← Option.some.inj h']
      exact ⟨le_refl _, le_refl _⟩
  | getPost pid now =>
    cases hf : findPost s pid with
    | none =>
      rw [step_getPost_none now hf, h] at h'
      rw [← Option.some.inj h']
      exact ⟨le_refl _, le_refl _⟩
    | some p0 =>
      rw [step_getPost_some now hf] at h'
      simp only [findThread] at h h'
      rw [h] at h'
      rw [← Option.some.inj h']
      exact ⟨le_refl _, le_refl _⟩
  | updatePost pid post_update =>
    cases hf : findPost s pid with
    | none =>
      rw [step_updatePost_none post_update hf, h] at h'
      rw [← Option.some.inj h']
      exact ⟨le_refl _, le_refl _⟩
    | some p0 =>
      rw [step_updatePost_some post_update hf] at h'
      simp only [findThread] at h h'
      rw [h] at h'
      rw [← Option.some.inj h']
      exact ⟨le_refl _, le_refl _⟩
  | deletePost pid =>
    cases hf : findPost s pid with
    | none =>
      rw [step_deletePost_none hf, h] at h'
      rw [← Option.some.inj h']
      exact ⟨le_refl _, le_refl _⟩
    | some p0 =>
      rw [step_deletePost_some hf] at h'
      simp only [findThread] at h h'
      rw [h] at h'
      rw [← Option.some.inj h']
      exact ⟨le_refl _, le_refl _⟩

theorem post_counters_mono (op : Op) (s : Store) (hw : WF s)
    {pid : Nat} {p p' : PostDB} (h : findPost s pid = some p)
    (h' : findPost (step op s) pid = some p') :
    p.view_count ≤ p'.view_count := by
  cases op with
  | getThreads =>
    rw [step_getThreads, h] at h'
    rw [← Option.some.inj h']
  | getPosts tid2 =>
    rw [step_getPosts, h] at h'
    rw [← Option.some.inj h']
  | getDocuments tid2 =>
    rw [step_getDocuments, h] at h'
    rw [← Option.some.inj h']
  | getThread tid0 now =>
    cases hf : findThread s tid0 with
    | none =>
      rw [step_getThread_none now hf, h] at h'
      rw [← Option.some.inj h']
    | some t0 =>
      rw [step_getThread_some now hf] at h'
      simp only [findPost] at h h'
      rw [h] at h'
      rw [← Option.some.inj h']
  | createThread title creator initial_post image_path now =>
    rw [step_createThread] at h'
    simp only [findPost] at h h'
    rw [find?_append_left _ h] at h'
    rw [← Option.some.inj h']
  | deleteThread tid0 =>
    cases hf : findThread s tid0 with
    | none =>
      rw [step_deleteThread_none hf, h] at h'
      rw [← Option.some.inj h']
    | some t0 =>
      rw [step_deleteThread_some hf] at h'
      simp only [findPost] at h h'
      rw [← find?_filter_stable hw.2.1 h h']
  | createPost tid0 text image_path now =>
    cases hf : findThread s tid0 with
    | none =>
      rw [step_createPost_none text image_path now hf, h] at h'
      rw [← Option.some.inj h']
    | some t0 =>
      rw [step_createPost_some text image_path now hf] at h'
      simp only [findPost] at h h'
      rw [find?_append_left _ h] at h'
      rw [← Option.some.inj h']
  | createPostJson tid0 post now =>
    cases hf : findThread s tid0 with
    | none =>
      rw [step_createPostJson_none post now hf, h] at h'
      rw [← Option.some.inj h']
    | some t0 =>
      rw [step_createPostJson_some post now hf] at h'
      simp only [findPost] at h h'
      rw [find?_append_left _ h] at h'
      rw [← Option.some.inj h']
  | createDocument document new_id now =>
    rw [step_createDocument] at h'
    simp only [findPost] at h h'
    rw [h] at h'
    rw [← Option.some.inj h']
  | getDocument did now =>
    cases hf : findDoc s did with
    | none =>
      rw [step_getDocument_none now hf, h] at h'
      rw [← Option.some.inj h']
    | some d0 =>
      rw [step_getDocument_some now hf] at h'
      simp only [findPost] at h h'
      rw [h] at h'
      rw [← Option.some.inj h']
  | deleteDocument did =>
    cases hf : findDoc s did with
    | none =>
      rw [step_deleteDocument_none hf, h] at h'
      rw [← Option.some.inj h']
    | some d0 =>
      rw [step_deleteDocument_some hf] at h'
      simp only [findPost] at h h'
      rw [h] at h'
      rw [← Option.some.inj h']
  | updateDocument did document now =>
    cases hf : findDoc s did with
    | none =>
      rw [step_updateDocument_none document now hf, h] at h'
      rw [← Option.some.inj h']
    | some d0 =>
      rw [step_updateDocument_some document now hf] at h'
      simp only [findPost] at h h'
      rw [h] at h'
      rw [← Option.some.inj h']
  | getPost pid0 now =>
    cases hf : findPost s pid0 with
    | none =>
      rw [step_getPost_none now hf, h] at h'
      rw [← Option.some.inj h']
    | some p0 =>
      rw [step_getPost_some now hf] at h'
      simp only [findPost] at h h'
      have hkey : ∀ u : PostDB,
          ((if u.id == pid0 then
              { u with view_count := u.view_count + 1, seen := true,
                       last_viewed := some now }
            else u).id == pid) = (u.id == pid) := by
        intro u
        cases hu : u.id == pid0 <;> simp [hu]
      have hmap := find?_map_of_some hkey h
      rw [← Option.some.inj (hmap.symm.trans h')]
      cases hu : p.id == pid0 <;> simp [hu]
  | updatePost pid0 post_update =>
    cases hf : findPost s pid0 with
    | none =>
      rw [step_updatePost_none post_update hf, h] at h'
      rw [← Option.some.inj h']
    | some p0 =>
      rw [step_updatePost_some post_update hf] at h'
      simp only [findPost] at h h'
      have hkey : ∀ u : PostDB,
          ((if u.id == pid0 then
              { u with text := post_update.text, image := post_update.image,
                       edited := true }
            else u).id == pid) = (u.id == pid) := by
        intro u
        cases hu : u.id == pid0 <;> simp [hu]
      have hmap := find?_map_of_some hkey h
      rw [← Option.some.inj (hmap.symm.trans h')]
      cases hu : p.id == pid0 <;> simp [hu]
  | deletePost pid0 =>
    cases hf : findPost s pid0 with
    | none =>
      rw [step_deletePost_none hf, h] at h'
      rw [← Option.some.inj h']
    | some p0 =>
      rw [step_deletePost_some hf] at h'
      simp only [findPost] at h h'
      rw [← find?_filter_stable hw.2.1 h h']

theorem doc_counters_mono (op : Op) (s : Store) (hw : WF s)
    {did : String} {d d' : DocumentDB} (h : findDoc s did = some d)
    (h' : findDoc (step op s) did = some d') :
    d.view_count ≤ d'.view_count := by
  cases op with
  | getThreads =>
    rw [step_getThreads, h] at h'
    rw [← Option.some.inj h']
  | getPosts tid2 =>
    rw [step_getPosts, h] at h'
    rw [← Option.some.inj h']
  | getDocuments tid2 =>
    rw [step_getDocuments, h] at h'
    rw [← Option.some.inj h']
  | getThread tid0 now =>
    cases hf : findThread s tid0 with
    | none =>
      rw [step_getThread_none now hf, h] at h'
      rw [← Option.some.inj h']
    | some t0 =>
      rw [step_getThread_some now hf] at h'
      simp only [findDoc] at h h'
      rw [h] at h'
      rw [← Option.some.inj h']
  | createThread title creator initial_post image_path now =>
    rw [step_createThread] at h'
    simp only [findDoc] at h h'
    rw [h] at h'
    rw [← Option.some.inj h']
  | deleteThread tid0 =>
    cases hf : findThread s tid0 with
    | none =>
      rw [step_deleteThread_none hf, h] at h'
      rw [← Option.some.inj h']
    | some t0 =>
      rw [step_deleteThread_some hf] at h'
      simp only [findDoc] at h h'
      rw [← find?_filter_stable hw.2.2 h h']
  | createPost tid0 text image_path now =>
    cases hf : findThread s tid0 with
    | none =>
      rw [step_createPost_none text image_path now hf, h] at h'
      rw [← Option.some.inj h']
    | some t0 =>
      rw [step_createPost_some text image_path now hf] at h'
      simp only [findDoc] at h h'
      rw [h] at h'
      rw [← Option.some.inj h']
  | createPostJson tid0 post now =>
    cases hf : findThread s tid0 with
    | none =>
      rw [step_createPostJson_none post now hf, h] at h'
      rw [← Option.some.inj h']
    | some t0 =>
      rw [step_createPostJson_some post now hf] at h'
      simp only [findDoc] at h h'
      rw [h] at h'
      rw [← Option.some.inj h']
  | createDocument document new_id now =>
    rw [step_createDocument] at h'
    simp only [findDoc] at h h'
    rw [find?_append_left _ h] at h'
    rw [← Option.some.inj h']
  | getDocument did0 now =>
    cases hf : findDoc s did0 with
    | none =>
      rw [step_getDocument_none now hf, h] at h'
      rw [← Option.some.inj h']
    | some d0 =>
      rw [step_getDocument_some now hf] at h'
      simp only [findDoc] at h h'
      have hkey : ∀ u : DocumentDB,
          ((if u.id == did0 then
              { u with view_count := u.view_count + 1,
                       last_viewed := some now, updated_at := now }
            else u).id == did) = (u.id == did) := by
        intro u
        cases hu : u.id == did0 <;> simp [hu]
      have hmap := find?_map_of_some hkey h
      rw [← Option.some.inj (hmap.symm.trans h')]
      cases hu : d.id == did0 <;> simp [hu]
  | deleteDocument did0 =>
    cases hf : findDoc s did0 with
    | none =>
      rw [step_deleteDocument_none hf, h] at h'
      rw [← Option.some.inj h']
    | some d0 =>
      rw [step_deleteDocument_some hf] at h'
      simp only [findDoc] at h h'
      rw [← find?_filter_stable hw.2.2 h h']
  | updateDocument did0 document now =>
    cases hf : findDoc s did0 with
    | none =>
      rw [step_updateDocument_none document now hf, h] at h'
      rw [← Option.some.inj h']
    | some d0 =>
      rw [step_updateDocument_some document now hf] at h'
      simp only [findDoc] at h h'
      have hkey : ∀ u : DocumentDB,
          ((if u.id == did0 then
              { u with title := document.title,
                       thread_id := document.thread_id,
                       content := document.content, type := document.type,
                       updated_at := now }
            else u).id == did) = (u.id == did) := by
        intro u
        cases hu : u.id == did0 <;> simp [hu]
      have hmap := find?_map_of_some hkey h
      rw [← Option.some.inj (hmap.symm.trans h')]
      cases hu : d.id == did0 <;> simp [hu]
  | getPost pid0 now =>
    cases hf : findPost s pid0 with
    | none =>
      rw [step_getPost_none now hf, h] at h'
      rw [← Option.some.inj h']
    | some p0 =>
      rw [step_getPost_some now hf] at h'
      simp only [findDoc] at h h'
      rw [h] at h'
      rw [← Option.some.inj h']
  | updatePost pid0 post_update =>
    cases hf : findPost s pid0 with
    | none =>
      rw [step_updatePost_none post_update hf, h] at h'
      rw [← Option.some.inj h']
    | some p0 =>
      rw [step_updatePost_some post_update hf] at h'
      simp only [findDoc] at h h'
      rw [h] at h'
      rw [← Option.some.inj h']
  | deletePost pid0 =>
    cases hf : findPost s pid0 with
    | none =>
      rw [step_deletePost_none hf, h] at h'
      rw [← Option.some.inj h']
    | some p0 =>
      rw [step_deletePost_some hf] at h'
      simp only [findDoc] at h h'
      rw [h] at h'
      rw [← Option.some.inj h']

theorem updatePost_view_count_eq {s : Store} {pid : Nat}
    (post_update : PostCreate) {p p' : PostDB} (h : findPost s pid = some p)
    (h' : findPost (step (Op.updatePost pid post_update) s) pid = some p') :
    p'.view_count = p.view_count := by
  rw [step_updatePost_some post_update h] at h'
  simp only [findPost] at h h'
  have hkey : ∀ u : PostDB,
      ((if u.id == pid then
          { u with text := post_update.text, image := post_update.image,
                   edited := true }
        else u).id == pid) = (u.id == pid) := by
    intro u
    cases hu : u.id == pid <;> simp [hu]
  have hmap := find?_map_of_some hkey h
  rw [← Option.some.inj (hmap.symm.trans h')]
  cases hu : p.id == pid <;> simp [hu]

theorem updateDocument_view_count_eq {s : Store} {did : String}
    (document : DocumentCreate) (now : Nat) {d d' : DocumentDB}
    (h : findDoc s did = some d)
    (h' : findDoc (step (Op.updateDocument did document now) s) did = some d') :
    d'.view_count = d.view_count := by
  rw [step_updateDocument_some document now h] at h'
  simp only [findDoc] at h h'
  have hkey : ∀ u : DocumentDB,
      ((if u.id == did then
          { u with title := document.title, thread_id := document.thread_id,
                   content := document.content, type := document.type,
                   updated_at := now }
        else u).id == did) = (u.id == did) := by
    intro u
    cases hu : u.id == did <;> simp [hu]
  have hmap := find?_map_of_some hkey h
  rw [← Option.some.inj (hmap.symm.trans h')]
  cases hu : d.id == did <;> simp [hu]

/-- C9: in a well-formed store (unique primary keys), no single operation
lowers the counters of an entity that exists before and after it: a Thread's
`view_count` and `reply_count`, a Post's `view_count` and a Document's
`view_count` are monotone, and the full-replace updates of posts and
documents leave their `view_count` exactly unchanged. -/
theorem counters_never_decrease (op : Op) (s : Store) (hw : WF s) :
    (∀ tid t t', findThread s tid = some t →
        findThread (step op s) tid = some t' →
        t.view_count ≤ t'.view_count ∧ t.reply_count ≤ t'.reply_count) ∧
    (∀ pid p p', findPost s pid = some p →
        findPost (step op s) pid = some p' →
        p.view_count ≤ p'.view_count) ∧
    (∀ did d d', findDoc s did = some d →
        findDoc (step op s) did = some d' →
        d.view_count ≤ d'.view_count) ∧
    (∀ pid post_update p p', findPost s pid = some p →
        findPost (step (Op.updatePost pid post_update) s) pid = some p' →
        p'.view_count = p.view_count) ∧
    (∀ did document now d d', findDoc s did = some d →
        findDoc (step (Op.updateDocument did document now) s) did = some d' →
        d'.view_count = d.view_count) :=
  ⟨fun _ _ _ h h' => thread_counters_mono op s hw h h',
   fun _ _ _ h h' => post_counters_mono op s hw h h',
   fun _ _ _ h h' => doc_counters_mono op s hw h h',
   fun _ post_update _ _ h h' => updatePost_view_count_eq post_update h h',
   fun _ document now _ _ h h' => updateDocument_view_count_eq document now h h'⟩

/-- C9 witness: the sample store is well-formed; fetching its thread bumps
the thread's `view_count` from 0 to 1 (0 ≤ 1), and a full-replace update of
its post leaves the post's `view_count` at 0. -/
theorem counters_never_decrease_witness :
    (sampleThread.view_count ≤
        ({ sampleThread with view_count := 1, updated_at := 9 } :
          ThreadDB).view_count ∧
      sampleThread.reply_count ≤
        ({ sampleThread with view_count := 1, updated_at := 9 } :
          ThreadDB).reply_count) ∧
    ({ samplePost with text := "new", image := none, edited := true } :
        PostDB).view_count = samplePost.view_count :=
  ⟨(counters_never_decrease (Op.getThread 1 9) sampleStore (by decide)).1
      1 sampleThread { sampleThread with view_count := 1, updated_at := 9 }
      (by rfl) (by rfl),
   (counters_never_decrease (Op.getThread 1 9) sampleStore (by decide)).2.2.2.1
      1 { text := "new" } samplePost
      { samplePost with text := "new", image := none, edited := true }
      (by rfl) (by rfl)⟩

end Stitch
